import Mathlib

/-!
# FlyoutMenu and ValueRenderer

A shallow embedding of two React components of `carbon-addons-iot-react`:

* `src/components/FlyoutMenu/FlyoutMenu.jsx`: the open/closed state of the
  flyout, its footer, the coarse edge handed to the tooltip and the offset
  hook `menuOffset`;
* `src/components/ValueCard/ValueRenderer.jsx`: the scaling and formatting of
  a card value and its title.

Conventions of the embedding.

* The numbers that `ValueRenderer` formats are the doubles of the host
  language: `JSNumber` has `NaN`, the two infinities and the finite doubles,
  each given by its exact value, and the quotient of two numbers is rounded to
  the nearest double. The negative zero is not told apart from zero:
  `ValueRenderer` compares it, prints it and fixes its digits as it does zero.
* The measurements of the DOM that `menuOffset` reads are rationals with exact
  arithmetic.
* A component is a function from its props (and, for `FlyoutMenu`, the current
  value of the `useState` cell) to a view: a record of what the component
  hands to its children. Event handlers found in the view are functions on
  the run-time state, so a click is the application of the handler that was
  rendered for it.
* A call that throws in the host language returns `Except.error`.
-/

/-! ## Host language: numbers, values, `Number.prototype.toFixed`, `ToString` -/

/-- Errors thrown by the built-in operations that the components call. -/
inductive JSError where
  | RangeError
  | TypeError
deriving DecidableEq, Repr

deriving instance DecidableEq for Except

/-- A Number value of the host language, a double: `NaN`, an infinity, or a
finite double given by its exact value. The negative zero is not told apart
from zero. A rational that is not the exact value of a double stands for no
Number value (see `JSNumber.isDouble`): the number that a decimal literal
denotes is `JSNumber.ofRat` of the literal, which a numeric literal of type
`JSNumber` stands for, so `0.1 : JSNumber` is the double nearest to one
tenth. -/
inductive JSNumber where
  | NaN
  | Infinity (negative : Bool)
  | finite (value : ℚ)
deriving DecidableEq

namespace JSNumber

/-- A run of `n` characters `0`. -/
def zeros (n : ℕ) : List Char := List.replicate n '0'

/-- The decimal digits of a natural number, most significant first. -/
def digits (n : ℕ) : List Char := Nat.toDigits 10 n

/-- The number of binary digits of a positive natural number. -/
def bits (n : ℕ) : ℕ := (Nat.toDigits 2 n).length

/-- The integer nearest to `num / den`, a tie going to the even one (`den`
positive). -/
def roundHalfEven (num den : ℕ) : ℕ :=
  let q := num / den
  let r := num % den
  if 2 * r < den then q else if den < 2 * r then q + 1 else if q % 2 = 0 then q else q + 1

/-- The exponent `e` with `2 ^ e ≤ a / b < 2 ^ (e + 1)`, for positive `a` and
`b`. -/
def binaryExponent (a b : ℕ) : ℤ :=
  let c : ℤ := (bits a : ℤ) - (bits b : ℤ)
  let reached : Bool := if 0 ≤ c then decide (2 ^ c.toNat * b ≤ a) else decide (b ≤ a * 2 ^ (-c).toNat)
  if reached then c else c - 1

/-- The rational `m * base ^ e`. -/
def scale (base m : ℕ) (e : ℤ) : ℚ :=
  if 0 ≤ e then ((m * base ^ e.toNat : ℕ) : ℚ) else (m : ℚ) / ((base ^ (-e).toNat : ℕ) : ℚ)

/-- The Number value for a real number: the nearest double, a tie going to
the one with an even significand, and an infinity from `2 ^ 1024` on (IEEE 754
round to nearest, ties to even; 53 bits of significand, the least exponent of
a unit in the last place being `-1074`). -/
def ofRat (x : ℚ) : JSNumber :=
  if x = 0 then finite 0
  else
    let a := x.num.natAbs
    let b := x.den
    let e : ℤ := max (binaryExponent a b - 52) (-1074)
    let m : ℕ := if 0 ≤ e then roundHalfEven a (b * 2 ^ e.toNat) else roundHalfEven (a * 2 ^ (-e).toNat) b
    if 971 < e ∨ (e = 971 ∧ 2 ^ 53 ≤ m) then Infinity (decide (x < 0))
    else if x < 0 then finite (-scale 2 m e)
    else finite (scale 2 m e)

/-- Whether a Number value of the model is a value of the host language: a
finite one is when rounding leaves it as it is. -/
def isDouble : JSNumber → Prop
  | finite x => ofRat x = finite x
  | _ => True

/-- The Number value of a natural number literal. -/
def ofNat (n : ℕ) : JSNumber := ofRat n

instance (n : ℕ) : OfNat JSNumber n := ⟨ofNat n⟩

instance : OfScientific JSNumber :=
  ⟨fun mantissa exponentSign decimalExponent =>
    ofRat (OfScientific.ofScientific mantissa exponentSign decimalExponent)⟩

/-- The comparison `a < b` of two Number values. -/
def lt : JSNumber → JSNumber → Bool
  | finite x, finite y => decide (x < y)
  | finite _, Infinity negative => !negative
  | Infinity negative, finite _ => negative
  | Infinity a, Infinity b => a && !b
  | _, _ => false

instance : LT JSNumber := ⟨fun a b => lt a b = true⟩

instance (a b : JSNumber) : Decidable (a < b) := inferInstanceAs (Decidable (lt a b = true))

/-- The quotient `a / b` of two Number values, rounded to a double. -/
def div : JSNumber → JSNumber → JSNumber
  | finite x, finite y =>
    if y = 0 then (if x = 0 then NaN else Infinity (decide (x < 0))) else ofRat (x / y)
  | finite _, Infinity _ => finite 0
  | Infinity negative, finite y => Infinity (xor negative (decide (y < 0)))
  | _, _ => NaN

instance : Div JSNumber := ⟨div⟩

/-- The integer nearest to `num / den`, a tie going to the larger one
(`den` positive). -/
def roundDiv (num den : ℕ) : ℕ := (2 * num + den) / (2 * den)

/-- The integer `n` for which `n / 10 ^ f - x` is as close to zero as possible,
the larger such `n` when there are two (`x` not negative). -/
def roundHalfUp (x : ℚ) (f : ℕ) : ℕ := roundDiv (x.num.natAbs * 10 ^ f) x.den

/-- The exponent `n` with `10 ^ (n - 1) ≤ x < 10 ^ n`, for positive `x`. -/
def decimalExponent (x : ℚ) : ℤ :=
  let a := x.num.natAbs
  let b := x.den
  let c : ℤ := ((digits a).length : ℤ) - ((digits b).length : ℤ)
  let reached : Bool := if 0 ≤ c then decide (10 ^ c.toNat * b ≤ a) else decide (b ≤ a * 10 ^ (-c).toNat)
  if reached then c + 1 else c

/-- Drops the trailing zero digits of `s`, raising the exponent `e` by one for
each digit dropped: `s * 10 ^ e` stays the same. -/
def stripZeros : ℕ → ℕ → ℤ → ℕ × ℤ
  | 0, s, e => (s, e)
  | fuel + 1, s, e => if s ≠ 0 ∧ s % 10 = 0 then stripZeros fuel (s / 10) (e + 1) else (s, e)

/-- Whether the decimal `s * 10 ^ e` denotes the double `x`: its Number value
is `x`. -/
def roundTrips (x : ℚ) (s : ℕ) (e : ℤ) : Bool :=
  match ofRat (scale 10 s e) with
  | finite y => decide (y.num = x.num) && decide (y.den = x.den)
  | _ => false

/-- The shortest decimal `s * 10 ^ e` that denotes the positive double `x`,
searched from `k` significant digits on: of the two decimals of `k` digits
next to `x`, those that denote `x` are kept, the closer to `x` is taken, and of
two equally close ones the even one. Seventeen digits denote every double;
without fuel left the nearest decimal of 17 digits is returned. -/
def shortest (x : ℚ) (n : ℤ) : ℕ → ℕ → ℕ × ℤ
  | 0, _ =>
    let e : ℤ := n - 17
    if e ≤ 0 then (roundDiv (x.num.natAbs * 10 ^ (-e).toNat) x.den, e)
    else (roundDiv x.num.natAbs (x.den * 10 ^ e.toNat), e)
  | fuel + 1, k =>
    let e : ℤ := n - k
    let num : ℕ := if e ≤ 0 then x.num.natAbs * 10 ^ (-e).toNat else x.num.natAbs
    let den : ℕ := if e ≤ 0 then x.den else x.den * 10 ^ e.toNat
    let lo : ℕ := num / den
    let hi : ℕ := lo + 1
    let lower : Bool := roundTrips x lo e
    let upper : Bool := roundTrips x hi e
    if lower && upper then
      if 2 * num < (lo + hi) * den then (lo, e)
      else if (lo + hi) * den < 2 * num then (hi, e)
      else if lo % 2 = 0 then (lo, e) else (hi, e)
    else if lower then (lo, e)
    else if upper then (hi, e)
    else shortest x n fuel (k + 1)

/-- `Number::toString` for a positive finite number (radix 10). -/
def toStringPos (x : ℚ) : List Char :=
  let found := shortest x (decimalExponent x) 17 1
  let (s, e) := stripZeros 17 found.1 found.2
  let ds := digits s
  let k : ℤ := ds.length
  let n : ℤ := e + k
  if k ≤ n ∧ n ≤ 21 then ds ++ zeros (n - k).toNat
  else if 0 < n ∧ n ≤ 21 then ds.take n.toNat ++ '.' :: ds.drop n.toNat
  else if -6 < n ∧ n ≤ 0 then '0' :: '.' :: (zeros (-n).toNat ++ ds)
  else
    let sign : Char := if n - 1 < 0 then '-' else '+'
    let ex := digits (n - 1).natAbs
    if k = 1 then ds ++ 'e' :: sign :: ex
    else ds.take 1 ++ '.' :: (ds.drop 1 ++ 'e' :: sign :: ex)

/-- `Number::toString(x)` in radix 10: what `String(x)` and a template literal
give for a number. -/
def toString : JSNumber → String
  | NaN => "NaN"
  | Infinity negative => if negative then "-Infinity" else "Infinity"
  | finite x =>
    if x = 0 then "0"
    else if x < 0 then String.mk ('-' :: toStringPos (-x))
    else String.mk (toStringPos x)

/-- `Number.prototype.toFixed(fractionDigits)` for a `fractionDigits` that is a
non-negative integer: a `RangeError` above 100; else the string of a number
that is not finite; else the decimal notation of the exact value of `x`
rounded to `fractionDigits` digits after the point (a tie goes away from
zero), and plain `toString` from `10 ^ 21` on. -/
def toFixed (x : JSNumber) (fractionDigits : ℕ) : Except JSError String :=
  if 100 < fractionDigits then Except.error JSError.RangeError
  else
    match x with
    | finite x =>
      let s : List Char := if x < 0 then ['-'] else []
      let x : ℚ := if x < 0 then -x else x
      if (10 : ℚ) ^ 21 ≤ x then Except.ok (String.mk (s ++ (toString (finite x)).data))
      else
        let n := roundHalfUp x fractionDigits
        let m := digits n
        let m :=
          if fractionDigits ≠ 0 then
            let m := if m.length ≤ fractionDigits then zeros (fractionDigits + 1 - m.length) ++ m else m
            m.take (m.length - fractionDigits) ++ '.' :: m.drop (m.length - fractionDigits)
          else m
        Except.ok (String.mk (s ++ m))
    | x => Except.ok (toString x)

end JSNumber

/-- The values that a `value` or `unit` prop can hold (`PropTypes.any`): the
primitive values and the objects. An object, which a React element, an array
and a function are, is given by what its conversion to a string does: the
string it yields or the error it throws; a React element yields
`[object Object]`. A BigInt, which is neither a boolean nor a number for
`typeof`, is treated like an object whose string is its digits. -/
inductive JSValue where
  | undefined
  | null
  | boolean (b : Bool)
  | number (n : JSNumber)
  | string (s : String)
  | symbol (description : String)
  | object (conversion : Except JSError String)
deriving DecidableEq

/-- `Boolean.prototype.toString`. -/
def JSBoolean.toString (b : Bool) : String := if b then "true" else "false"

/-- `ToString` of the host language: what a template literal inserts for the
value. A Symbol has no string: the conversion throws a `TypeError`. -/
def JSValue.toString : JSValue → Except JSError String
  | JSValue.undefined => Except.ok "undefined"
  | JSValue.null => Except.ok "null"
  | JSValue.boolean b => Except.ok (JSBoolean.toString b)
  | JSValue.number n => Except.ok (JSNumber.toString n)
  | JSValue.string s => Except.ok s
  | JSValue.symbol _ => Except.error JSError.TypeError
  | JSValue.object conversion => conversion

/-- A React element as a value: an object whose string is `[object Object]`. -/
def JSValue.reactElement : JSValue := JSValue.object (Except.ok "[object Object]")

/-! ## ValueRenderer -/

/-- Modelled from the spec: the constant `CARD_LAYOUTS` of
`constants/LayoutConstants`, which is not among the sources; the spec gives
the layout as one of Horizontal and Vertical. -/
inductive CARD_LAYOUTS where
  | HORIZONTAL
  | VERTICAL
deriving DecidableEq, Repr

/-- What `ValueRenderer` puts inside `AttributeValue`: the value itself, the
`StyledBoolean` element around the string of a boolean, or the string that
`toFixed` returned. -/
inductive RenderValue where
  | value (v : JSValue)
  | StyledBoolean (text : String)
  | text (s : String)
deriving DecidableEq

/-- The `AttributeValue` element: its `title`, `layout` and `hasSecondary`
attributes and its child. -/
structure AttributeValue where
  title : String
  layout : CARD_LAYOUTS
  hasSecondary : Bool
  children : RenderValue
deriving DecidableEq

/-- The `Attribute` element that `ValueRenderer` returns. -/
structure Attribute where
  unit : JSValue
  hasSecondary : Bool
  children : AttributeValue
deriving DecidableEq

/-- The props of `ValueRenderer`; `precision` is a non-negative integer. -/
structure ValueRendererProps where
  value : JSValue
  unit : JSValue
  layout : CARD_LAYOUTS := CARD_LAYOUTS.HORIZONTAL
  precision : ℕ := 0
  hasSecondary : Bool := false

/-- The body of `ValueRenderer` up to its `return`: the value to render. -/
def renderValue (value : JSValue) (precision : ℕ) : Except JSError RenderValue :=
  match value with
  | JSValue.boolean b => Except.ok (RenderValue.StyledBoolean (JSBoolean.toString b))
  | JSValue.number value =>
    (if value > 1000000000000 then JSNumber.toFixed (value / 1000000000000) precision
      else if value > 1000000000 then JSNumber.toFixed (value / 1000000000) precision
      else if value > 1000000 then JSNumber.toFixed (value / 1000000) precision
      else if value > 1000 then JSNumber.toFixed (value / 1000) precision
      else JSNumber.toFixed value precision).map RenderValue.text
  | v => Except.ok (RenderValue.value v)

/-- The component `ValueRenderer`: the value to render is computed first, then
the `return` builds the title from the template literal
`${value} ${unit}`, the value being converted before the unit. -/
def ValueRenderer (props : ValueRendererProps) : Except JSError Attribute :=
  match renderValue props.value props.precision with
  | Except.error e => Except.error e
  | Except.ok rendered =>
    match props.value.toString with
    | Except.error e => Except.error e
    | Except.ok valueText =>
      match props.unit.toString with
      | Except.error e => Except.error e
      | Except.ok unitText =>
        Except.ok
          { unit := props.unit
            hasSecondary := props.hasSecondary
            children :=
              { title := valueText ++ " " ++ unitText
                layout := props.layout
                hasSecondary := props.hasSecondary
                children := rendered } }

/-- The spec's scaling rule: the largest of the four thresholds that `v`
strictly exceeds, and 1 when it exceeds none. -/
def scaleDivisor (v : JSNumber) : JSNumber :=
  JSNumber.ofNat
    ((([1000, 1000000, 1000000000, 1000000000000] : List ℕ).filter
      (fun t => decide (v > JSNumber.ofNat t))).foldl max 1)

/-- The visible content of a rendering: the child of `AttributeValue`. -/
def visibleText (r : Except JSError Attribute) : Except JSError RenderValue :=
  r.map (fun a => a.children.children)

/-! ## FlyoutMenu -/

namespace FlyoutMenuDirection

/-- The value `'bottom-start'`. -/
def BottomStart : String := "bottom-start"

/-- The value `'bottom-end'`. -/
def BottomEnd : String := "bottom-end"

/-- The value `'top-start'`. -/
def TopStart : String := "top-start"

/-- The value `'top-end'`. -/
def TopEnd : String := "top-end"

/-- The value `'left-start'`. -/
def LeftStart : String := "left-start"

/-- The value `'left-end'`. -/
def LeftEnd : String := "left-end"

/-- The value `'right-start'`. -/
def RightStart : String := "right-start"

/-- The value `'right-end'`. -/
def RightEnd : String := "right-end"

end FlyoutMenuDirection

/-- The part of `getBoundingClientRect()` that the offset hook reads. -/
structure DOMRect where
  width : ℚ
  height : ℚ
deriving DecidableEq

/-- The object `{ top, left }` returned by the offset hook. -/
structure MenuOffset where
  top : ℚ
  left : ℚ
deriving DecidableEq

/-- The `transactional` prop: a boolean, or any other value (a node). -/
inductive Transactional (ν : Type) where
  | boolean (b : Bool)
  | node (payload : ν)
deriving DecidableEq

/-- The `i18n` prop. -/
structure I18n where
  cancelButtonText : String := "Cancel"
  applyButtonText : String := "Apply"
deriving DecidableEq

/-- The run-time state around one `FlyoutMenu`: its `useState` cell `isOpen`
and the state `owner` of the code that owns the component, which is what the
callbacks `onApply` and `onCancel` act on. -/
structure FlyoutState (σ : Type) where
  isOpen : Bool
  owner : σ
deriving DecidableEq

/-- The props of `FlyoutMenu` that reach the modelled logic. `openProp` is the
key `open` of the rest props, `none` when the owner does not pass it; the rest
props are spread onto the `Tooltip` after `open={isOpen}`. A callback is
`none` when it is not supplied. -/
structure FlyoutMenuProps (σ ν : Type) where
  direction : String := FlyoutMenuDirection.BottomStart
  defaultOpen : Bool := false
  disabled : Bool := false
  iconDescription : String := ""
  i18n : I18n := {}
  transactional : Transactional ν := Transactional.boolean false
  onApply : Option (σ → σ) := none
  onCancel : Option (σ → σ) := none
  openProp : Option Bool := none

/-- A rendered `Button`: its label, its `disabled` attribute and its `onClick`
handler. -/
structure ButtonView (σ : Type) where
  label : String
  disabled : Bool
  onClick : FlyoutState σ → FlyoutState σ

/-- The footer below the children of the flyout: nothing (`null`), the
container of the Cancel and Apply buttons, or the custom container around the
`transactional` value. -/
inductive FooterView (σ ν : Type) where
  | null
  | bottomContainer (cancel : ButtonView σ) (submit : ButtonView σ)
  | bottomContainerCustom (payload : ν)

/-- The three footer modes of the spec. -/
inductive FooterMode where
  | Absent
  | Default
  | Custom
deriving DecidableEq, Repr

/-- The props that `FlyoutMenu` hands to `Tooltip`, after the spread of the
rest props, and the footer among its children; `openAttr` is the attribute
`open`. -/
structure TooltipView (σ ν : Type) where
  disabled : Bool
  openAttr : Bool
  direction : String
  menuOffset : Option DOMRect → Option DOMRect → MenuOffset
  footer : FooterView σ ν

/-- What `FlyoutMenu` returns: the coarse edge in the class of the outer
element, the trigger button (with the flag of its `--open` class) and the
tooltip. -/
structure FlyoutMenuView (σ ν : Type) where
  edgeClass : String
  trigger : ButtonView σ
  triggerOpenClass : Bool
  tooltip : TooltipView σ ν

/-- The clicks a user can make on a rendered `FlyoutMenu`. -/
inductive Click where
  | trigger
  | cancel
  | apply
deriving DecidableEq, Repr

namespace FlyoutMenu

/-- The state update `setIsOpen(value)`. -/
def setIsOpen {σ : Type} (value : Bool) (s : FlyoutState σ) : FlyoutState σ :=
  { s with isOpen := value }

/-- The statement `if (callback) { callback(); }`. -/
def invoke {σ : Type} (callback : Option (σ → σ)) (s : FlyoutState σ) : FlyoutState σ :=
  match callback with
  | some f => { s with owner := f s.owner }
  | none => s

/-- The constant `defaultFooter`: the Cancel and Apply buttons when
`transactional === true`, else `null`. -/
def defaultFooter {σ ν : Type} (props : FlyoutMenuProps σ ν) : FooterView σ ν :=
  match props.transactional with
  | Transactional.boolean true =>
    FooterView.bottomContainer
      { label := props.i18n.cancelButtonText
        disabled := false
        onClick := fun s => invoke props.onCancel (setIsOpen false s) }
      { label := props.i18n.applyButtonText
        disabled := false
        onClick := fun s => invoke props.onApply (setIsOpen false s) }
  | _ => FooterView.null

/-- The variable `tooltipDirection` after the first `switch (direction)`. -/
def tooltipDirection (direction : String) : String :=
  if direction = FlyoutMenuDirection.TopStart ∨ direction = FlyoutMenuDirection.TopEnd then "top"
  else if direction = FlyoutMenuDirection.RightStart ∨ direction = FlyoutMenuDirection.RightEnd then
    "right"
  else if direction = FlyoutMenuDirection.LeftStart ∨ direction = FlyoutMenuDirection.LeftEnd then
    "left"
  else "bottom"

/-- The width `ref.current ? ref.current.getBoundingClientRect().width : 0`. -/
def widthOf (ref : Option DOMRect) : ℚ :=
  match ref with
  | some rect => rect.width
  | none => 0

/-- The height `ref.current ? ref.current.getBoundingClientRect().height : 0`. -/
def heightOf (ref : Option DOMRect) : ℚ :=
  match ref with
  | some rect => rect.height
  | none => 0

/-- The hook `menuOffset` handed to `Tooltip`; the refs hold the bounding
rectangle of the mounted element, `none` when nothing is mounted. -/
def menuOffset (direction : String) (buttonRef tooltipContentRef : Option DOMRect) : MenuOffset :=
  let leftOffset : ℚ := 0
  let caretWidth : ℚ := 16
  let caretHeight : ℚ := 12
  let tooltipWidth := widthOf tooltipContentRef
  let tooltipHeight := heightOf tooltipContentRef
  let buttonWidth := widthOf buttonRef
  if direction = FlyoutMenuDirection.BottomEnd then
    { top := -caretHeight, left := -tooltipWidth / 2 - caretWidth + buttonWidth }
  else if direction = FlyoutMenuDirection.TopStart then
    { top := caretHeight, left := caretWidth + tooltipWidth / 2 }
  else if direction = FlyoutMenuDirection.TopEnd then
    { top := caretHeight, left := -tooltipWidth / 2 - caretWidth + buttonWidth }
  else if direction = FlyoutMenuDirection.LeftStart then
    { top := tooltipHeight / 2 + caretHeight, left := leftOffset }
  else if direction = FlyoutMenuDirection.LeftEnd then
    { top := -tooltipHeight / 2 + caretHeight + caretWidth, left := leftOffset }
  else if direction = FlyoutMenuDirection.RightStart then
    { top := tooltipHeight / 2 + 2, left := leftOffset }
  else if direction = FlyoutMenuDirection.RightEnd then
    { top := caretWidth - tooltipHeight / 2, left := leftOffset }
  else
    { top := -caretHeight, left := caretWidth + tooltipWidth / 2 }

/-- The footer that `FlyoutMenu` puts below the children: `defaultFooter` when
`typeof transactional === 'boolean'`, else the custom container around the
`transactional` value. -/
def footer {σ ν : Type} (props : FlyoutMenuProps σ ν) : FooterView σ ν :=
  match props.transactional with
  | Transactional.boolean _ => defaultFooter props
  | Transactional.node payload => FooterView.bottomContainerCustom payload

/-- The attribute `open` that reaches `Tooltip`: `open={isOpen}` comes first
and the spread `{...props}` after it, so an `open` among the rest props
replaces it. -/
def tooltipOpen (isOpen : Bool) (openProp : Option Bool) : Bool :=
  match openProp with
  | some external => external
  | none => isOpen

end FlyoutMenu

/-- The component `FlyoutMenu`, rendered with the current value `isOpen` of its
state cell. -/
def FlyoutMenu {σ ν : Type} (props : FlyoutMenuProps σ ν) (isOpen : Bool) : FlyoutMenuView σ ν :=
  { edgeClass := FlyoutMenu.tooltipDirection props.direction
    trigger :=
      { label := props.iconDescription
        disabled := props.disabled
        onClick := fun s => FlyoutMenu.setIsOpen (!isOpen) s }
    triggerOpenClass := isOpen
    tooltip :=
      { disabled := props.disabled
        openAttr := FlyoutMenu.tooltipOpen isOpen props.openProp
        direction := FlyoutMenu.tooltipDirection props.direction
        menuOffset := FlyoutMenu.menuOffset props.direction
        footer := FlyoutMenu.footer props } }

namespace FlyoutMenu

/-- The state of a freshly mounted component: `useState(defaultOpen)`. -/
def initialState {σ ν : Type} (props : FlyoutMenuProps σ ν) (owner : σ) : FlyoutState σ :=
  { isOpen := props.defaultOpen, owner := owner }

/-- The handler that the current rendering attaches to the clicked button,
`none` when that button is not part of the rendering. -/
def handler {σ ν : Type} (view : FlyoutMenuView σ ν) (c : Click) : Option (FlyoutState σ → FlyoutState σ) :=
  match c, view.tooltip.footer with
  | Click.trigger, _ => some view.trigger.onClick
  | Click.cancel, FooterView.bottomContainer cancel _ => some cancel.onClick
  | Click.apply, FooterView.bottomContainer _ submit => some submit.onClick
  | _, _ => none

/-- One click that reaches its button: the component is rendered in the
current state and the `onClick` handler of the clicked button runs; a click on
a button that is not part of the rendering changes nothing. Whether `Button`
passes a click on when it is disabled, and whether `Tooltip` has mounted the
footer at that moment, is their own matter and is not looked at. -/
def click {σ ν : Type} (props : FlyoutMenuProps σ ν) (s : FlyoutState σ) (c : Click) : FlyoutState σ :=
  match handler (FlyoutMenu props s.isOpen) c with
  | some h => h s
  | none => s

/-- A sequence of clicks, the component being rendered again after each. -/
def clicks {σ ν : Type} (props : FlyoutMenuProps σ ν) (s : FlyoutState σ) (cs : List Click) : FlyoutState σ :=
  cs.foldl (click props) s

/-- Modelled from the spec: the floating panel primitive `Tooltip`, which is
not among the sources, shows its content exactly when the `open` flag it
receives is true. -/
def panelVisible {σ ν : Type} (view : FlyoutMenuView σ ν) : Bool :=
  view.tooltip.openAttr

/-- The footer mode of a rendered footer. -/
def modeOf {σ ν : Type} : FooterView σ ν → FooterMode
  | FooterView.null => FooterMode.Absent
  | FooterView.bottomContainer _ _ => FooterMode.Default
  | FooterView.bottomContainerCustom _ => FooterMode.Custom

/-- The spec's panel content selection: the footer mode as a function of
`transactional` alone. -/
def footerModeSpec {ν : Type} : Transactional ν → FooterMode
  | Transactional.boolean true => FooterMode.Default
  | Transactional.boolean false => FooterMode.Absent
  | Transactional.node _ => FooterMode.Custom

/-- The spec's mapping from a direction to the coarse edge. -/
def coarseEdgeSpec (direction : String) : String :=
  if direction ∈ ["top-start", "top-end"] then "top"
  else if direction ∈ ["right-start", "right-end"] then "right"
  else if direction ∈ ["left-start", "left-end"] then "left"
  else "bottom"

end FlyoutMenu

/-! ## Theorems: FlyoutMenu -/

/-- C1: for each of the eight directions and all measurements `bw`, `tw`, `th`
of the mounted button and tooltip, `menuOffset` returns the row of the offset
table with `caretWidth = 16` and `caretHeight = 12`; a measurement whose
element is not mounted counts as 0 in the row; `TopEnd` with a button 100 wide
and a tooltip 200 by 80 gives `top = 12`, `left = -16`; with nothing mounted
every direction gives an explicit pair of numbers. -/
theorem menuOffset_table (bw bh tw th : ℚ) :
    (FlyoutMenu.menuOffset FlyoutMenuDirection.BottomStart
          (some { width := bw, height := bh }) (some { width := tw, height := th })
          = { top := -12, left := 16 + tw / 2 }
      ∧ FlyoutMenu.menuOffset FlyoutMenuDirection.BottomEnd
          (some { width := bw, height := bh }) (some { width := tw, height := th })
          = { top := -12, left := -tw / 2 - 16 + bw }
      ∧ FlyoutMenu.menuOffset FlyoutMenuDirection.TopStart
          (some { width := bw, height := bh }) (some { width := tw, height := th })
          = { top := 12, left := 16 + tw / 2 }
      ∧ FlyoutMenu.menuOffset FlyoutMenuDirection.TopEnd
          (some { width := bw, height := bh }) (some { width := tw, height := th })
          = { top := 12, left := -tw / 2 - 16 + bw }
      ∧ FlyoutMenu.menuOffset FlyoutMenuDirection.LeftStart
          (some { width := bw, height := bh }) (some { width := tw, height := th })
          = { top := th / 2 + 12, left := 0 }
      ∧ FlyoutMenu.menuOffset FlyoutMenuDirection.LeftEnd
          (some { width := bw, height := bh }) (some { width := tw, height := th })
          = { top := -th / 2 + 12 + 16, left := 0 }
      ∧ FlyoutMenu.menuOffset FlyoutMenuDirection.RightStart
          (some { width := bw, height := bh }) (some { width := tw, height := th })
          = { top := th / 2 + 2, left := 0 }
      ∧ FlyoutMenu.menuOffset FlyoutMenuDirection.RightEnd
          (some { width := bw, height := bh }) (some { width := tw, height := th })
          = { top := 16 - th / 2, left := 0 })
    ∧ (FlyoutMenu.menuOffset FlyoutMenuDirection.BottomStart
          none (some { width := tw, height := th })
          = { top := -12, left := 16 + tw / 2 }
      ∧ FlyoutMenu.menuOffset FlyoutMenuDirection.BottomEnd
          none (some { width := tw, height := th })
          = { top := -12, left := -tw / 2 - 16 + 0 }
      ∧ FlyoutMenu.menuOffset FlyoutMenuDirection.TopStart
          none (some { width := tw, height := th })
          = { top := 12, left := 16 + tw / 2 }
      ∧ FlyoutMenu.menuOffset FlyoutMenuDirection.TopEnd
          none (some { width := tw, height := th })
          = { top := 12, left := -tw / 2 - 16 + 0 }
      ∧ FlyoutMenu.menuOffset FlyoutMenuDirection.LeftStart
          none (some { width := tw, height := th })
          = { top := th / 2 + 12, left := 0 }
      ∧ FlyoutMenu.menuOffset FlyoutMenuDirection.LeftEnd
          none (some { width := tw, height := th })
          = { top := -th / 2 + 12 + 16, left := 0 }
      ∧ FlyoutMenu.menuOffset FlyoutMenuDirection.RightStart
          none (some { width := tw, height := th })
          = { top := th / 2 + 2, left := 0 }
      ∧ FlyoutMenu.menuOffset FlyoutMenuDirection.RightEnd
          none (some { width := tw, height := th })
          = { top := 16 - th / 2, left := 0 })
    ∧ (FlyoutMenu.menuOffset FlyoutMenuDirection.BottomStart
          (some { width := bw, height := bh }) none
          = { top := -12, left := 16 + 0 / 2 }
      ∧ FlyoutMenu.menuOffset FlyoutMenuDirection.BottomEnd
          (some { width := bw, height := bh }) none
          = { top := -12, left := -0 / 2 - 16 + bw }
      ∧ FlyoutMenu.menuOffset FlyoutMenuDirection.TopStart
          (some { width := bw, height := bh }) none
          = { top := 12, left := 16 + 0 / 2 }
      ∧ FlyoutMenu.menuOffset FlyoutMenuDirection.TopEnd
          (some { width := bw, height := bh }) none
          = { top := 12, left := -0 / 2 - 16 + bw }
      ∧ FlyoutMenu.menuOffset FlyoutMenuDirection.LeftStart
          (some { width := bw, height := bh }) none
          = { top := 0 / 2 + 12, left := 0 }
      ∧ FlyoutMenu.menuOffset FlyoutMenuDirection.LeftEnd
          (some { width := bw, height := bh }) none
          = { top := -0 / 2 + 12 + 16, left := 0 }
      ∧ FlyoutMenu.menuOffset FlyoutMenuDirection.RightStart
          (some { width := bw, height := bh }) none
          = { top := 0 / 2 + 2, left := 0 }
      ∧ FlyoutMenu.menuOffset FlyoutMenuDirection.RightEnd
          (some { width := bw, height := bh }) none
          = { top := 16 - 0 / 2, left := 0 })
    ∧ (FlyoutMenu.menuOffset FlyoutMenuDirection.TopEnd
          (some { width := 100, height := bh }) (some { width := 200, height := 80 })
          = { top := 12, left := -16 }
      ∧ FlyoutMenu.menuOffset FlyoutMenuDirection.TopStart
          (some { width := 100, height := bh }) (some { width := 200, height := 80 })
          = { top := 12, left := 116 }
      ∧ FlyoutMenu.menuOffset FlyoutMenuDirection.BottomEnd
          (some { width := 100, height := bh }) (some { width := 300, height := 80 })
          = { top := -12, left := -66 }
      ∧ FlyoutMenu.menuOffset FlyoutMenuDirection.LeftStart
          (some { width := 100, height := bh }) (some { width := 200, height := 80 })
          = { top := 52, left := 0 }
      ∧ FlyoutMenu.menuOffset FlyoutMenuDirection.RightEnd
          (some { width := 100, height := bh }) (some { width := 200, height := 80 })
          = { top := -24, left := 0 })
    ∧ (FlyoutMenu.menuOffset FlyoutMenuDirection.BottomStart none none = { top := -12, left := 16 }
      ∧ FlyoutMenu.menuOffset FlyoutMenuDirection.BottomEnd none none = { top := -12, left := -16 }
      ∧ FlyoutMenu.menuOffset FlyoutMenuDirection.TopStart none none = { top := 12, left := 16 }
      ∧ FlyoutMenu.menuOffset FlyoutMenuDirection.TopEnd none none = { top := 12, left := -16 }
      ∧ FlyoutMenu.menuOffset FlyoutMenuDirection.LeftStart none none = { top := 12, left := 0 }
      ∧ FlyoutMenu.menuOffset FlyoutMenuDirection.LeftEnd none none = { top := 28, left := 0 }
      ∧ FlyoutMenu.menuOffset FlyoutMenuDirection.RightStart none none = { top := 2, left := 0 }
      ∧ FlyoutMenu.menuOffset FlyoutMenuDirection.RightEnd none none = { top := 16, left := 0 }) := by
  refine ⟨⟨rfl, rfl, rfl, rfl, rfl, rfl, rfl, rfl⟩, ⟨rfl, rfl, rfl, rfl, rfl, rfl, rfl, rfl⟩,
    ⟨rfl, rfl, rfl, rfl, rfl, rfl, rfl, rfl⟩, ?_, ?_⟩
  · simp only [FlyoutMenu.menuOffset, FlyoutMenu.widthOf, FlyoutMenu.heightOf,
      FlyoutMenuDirection.BottomStart, FlyoutMenuDirection.BottomEnd, FlyoutMenuDirection.TopStart,
      FlyoutMenuDirection.TopEnd, FlyoutMenuDirection.LeftStart, FlyoutMenuDirection.LeftEnd,
      FlyoutMenuDirection.RightStart, FlyoutMenuDirection.RightEnd]
    norm_num
    simp
  · simp only [FlyoutMenu.menuOffset, FlyoutMenu.widthOf, FlyoutMenu.heightOf,
      FlyoutMenuDirection.BottomStart, FlyoutMenuDirection.BottomEnd, FlyoutMenuDirection.TopStart,
      FlyoutMenuDirection.TopEnd, FlyoutMenuDirection.LeftStart, FlyoutMenuDirection.LeftEnd,
      FlyoutMenuDirection.RightStart, FlyoutMenuDirection.RightEnd]
    norm_num
    simp

/-- C9: the coarse edge handed to the tooltip is the spec's mapping of the
direction: `top` for TopStart and TopEnd, `right` for RightStart and RightEnd,
`left` for LeftStart and LeftEnd, and `bottom` for every other value, both
BottomStart and BottomEnd among them. -/
theorem tooltipDirection_mapping {σ ν : Type} (props : FlyoutMenuProps σ ν) (isOpen : Bool)
    (direction : String) :
    (FlyoutMenu props isOpen).tooltip.direction = FlyoutMenu.coarseEdgeSpec props.direction
    ∧ FlyoutMenu.tooltipDirection direction = FlyoutMenu.coarseEdgeSpec direction
    ∧ FlyoutMenu.tooltipDirection FlyoutMenuDirection.TopStart = "top"
    ∧ FlyoutMenu.tooltipDirection FlyoutMenuDirection.TopEnd = "top"
    ∧ FlyoutMenu.tooltipDirection FlyoutMenuDirection.RightStart = "right"
    ∧ FlyoutMenu.tooltipDirection FlyoutMenuDirection.RightEnd = "right"
    ∧ FlyoutMenu.tooltipDirection FlyoutMenuDirection.LeftStart = "left"
    ∧ FlyoutMenu.tooltipDirection FlyoutMenuDirection.LeftEnd = "left"
    ∧ FlyoutMenu.tooltipDirection FlyoutMenuDirection.BottomStart = "bottom"
    ∧ FlyoutMenu.tooltipDirection FlyoutMenuDirection.BottomEnd = "bottom"
    ∧ FlyoutMenu.tooltipDirection
        (if direction ∈ ["top-start", "top-end", "right-start", "right-end", "left-start", "left-end"]
          then "bottom-start" else direction) = "bottom" := by
  have key : ∀ d : String, FlyoutMenu.tooltipDirection d = FlyoutMenu.coarseEdgeSpec d := by
    intro d
    simp [FlyoutMenu.tooltipDirection, FlyoutMenu.coarseEdgeSpec, FlyoutMenuDirection.TopStart,
      FlyoutMenuDirection.TopEnd, FlyoutMenuDirection.RightStart, FlyoutMenuDirection.RightEnd,
      FlyoutMenuDirection.LeftStart, FlyoutMenuDirection.LeftEnd]
  refine ⟨key _, key _, by decide, by decide, by decide, by decide, by decide, by decide,
    by decide, by decide, ?_⟩
  rw [key]
  by_cases h : direction ∈ ["top-start", "top-end", "right-start", "right-end", "left-start", "left-end"]
  · rw [if_pos h]
    decide
  · rw [if_neg h]
    simp only [List.mem_cons, List.mem_singleton, List.not_mem_nil, or_false, not_or] at h
    simp [FlyoutMenu.coarseEdgeSpec, h]

/-- C8: the footer mode is the spec's function of `transactional` alone:
`true` gives the container of the Cancel and Apply buttons, `false` gives no
footer whether the menu is open or closed, and any other value is put inside
the custom container; exactly one of the three cases holds. -/
theorem footer_selected_by_transactional {σ ν : Type} (props : FlyoutMenuProps σ ν) (isOpen : Bool)
    (payload : ν) :
    FlyoutMenu.modeOf (FlyoutMenu props isOpen).tooltip.footer
        = FlyoutMenu.footerModeSpec props.transactional
    ∧ (FlyoutMenu ({ props with transactional := Transactional.boolean true } : FlyoutMenuProps σ ν) isOpen).tooltip.footer
        = FooterView.bottomContainer
            { label := props.i18n.cancelButtonText
              disabled := false
              onClick := fun s => FlyoutMenu.invoke props.onCancel (FlyoutMenu.setIsOpen false s) }
            { label := props.i18n.applyButtonText
              disabled := false
              onClick := fun s => FlyoutMenu.invoke props.onApply (FlyoutMenu.setIsOpen false s) }
    ∧ (FlyoutMenu ({ props with transactional := Transactional.boolean false } : FlyoutMenuProps σ ν) isOpen).tooltip.footer
        = FooterView.null
    ∧ (FlyoutMenu.handler
          (FlyoutMenu ({ props with transactional := Transactional.boolean false } : FlyoutMenuProps σ ν) isOpen)
          Click.apply).isNone = true
    ∧ (FlyoutMenu.handler
          (FlyoutMenu ({ props with transactional := Transactional.boolean false } : FlyoutMenuProps σ ν) isOpen)
          Click.cancel).isNone = true
    ∧ (FlyoutMenu ({ props with transactional := Transactional.node payload } : FlyoutMenuProps σ ν) isOpen).tooltip.footer
        = FooterView.bottomContainerCustom payload
    ∧ ((props.transactional = Transactional.boolean true
          ∧ FlyoutMenu.modeOf (FlyoutMenu props isOpen).tooltip.footer = FooterMode.Default)
        ∨ (props.transactional = Transactional.boolean false
          ∧ FlyoutMenu.modeOf (FlyoutMenu props isOpen).tooltip.footer = FooterMode.Absent)
        ∨ ((∃ n, props.transactional = Transactional.node n)
          ∧ FlyoutMenu.modeOf (FlyoutMenu props isOpen).tooltip.footer = FooterMode.Custom))
    ∧ FooterMode.Default ≠ FooterMode.Absent ∧ FooterMode.Default ≠ FooterMode.Custom
    ∧ FooterMode.Absent ≠ FooterMode.Custom := by
  refine ⟨?_, rfl, rfl, rfl, rfl, rfl, ?_, by decide, by decide, by decide⟩
  · rcases props with ⟨d, o, dis, l, i, t, a, c, op⟩
    rcases t with (_ | _) | n <;> rfl
  · rcases props with ⟨d, o, dis, l, i, t, a, c, op⟩
    rcases t with (_ | _) | n
    · exact Or.inr (Or.inl ⟨rfl, rfl⟩)
    · exact Or.inl ⟨rfl, rfl⟩
    · exact Or.inr (Or.inr ⟨⟨n, rfl⟩, rfl⟩)

/-- C3: with `transactional = true` and both callbacks supplied, from every
state a click on Apply leaves the state cell closed and the owner's state is
the result of running `onApply` once on it (and `onCancel` not at all); a
click on Cancel leaves the cell closed and runs `onCancel` once. -/
theorem apply_cancel_close_and_call_once {σ ν : Type} (props : FlyoutMenuProps σ ν)
    (onApply onCancel : σ → σ) (s : FlyoutState σ) :
    FlyoutMenu.click
        ({ props with
            transactional := Transactional.boolean true
            onApply := some onApply
            onCancel := some onCancel } : FlyoutMenuProps σ ν)
        s Click.apply
      = { isOpen := false, owner := onApply s.owner }
    ∧ FlyoutMenu.click
        ({ props with
            transactional := Transactional.boolean true
            onApply := some onApply
            onCancel := some onCancel } : FlyoutMenuProps σ ν)
        s Click.cancel
      = { isOpen := false, owner := onCancel s.owner } :=
  ⟨rfl, rfl⟩

/-- C4: in uncontrolled mode (no external `open` flag) a trigger click flips
the state cell and with it the flag of the panel: closed becomes open and a
second click closes it again; from every state two trigger clicks in a row
give back the state. -/
theorem toggle_flips_uncontrolled {σ ν : Type} (props : FlyoutMenuProps σ ν) (s : FlyoutState σ) :
    FlyoutMenu.click { props with openProp := none } s Click.trigger
        = { isOpen := !s.isOpen, owner := s.owner }
    ∧ FlyoutMenu.panelVisible
        (FlyoutMenu { props with openProp := none }
          (FlyoutMenu.click { props with openProp := none } s Click.trigger).isOpen)
        = !s.isOpen
    ∧ FlyoutMenu.click { props with openProp := none } { isOpen := false, owner := s.owner }
        Click.trigger = { isOpen := true, owner := s.owner }
    ∧ FlyoutMenu.click { props with openProp := none, defaultOpen := false }
        (FlyoutMenu.initialState { props with openProp := none, defaultOpen := false } s.owner)
        Click.trigger = { isOpen := true, owner := s.owner }
    ∧ FlyoutMenu.clicks { props with openProp := none } { isOpen := false, owner := s.owner }
        [Click.trigger, Click.trigger] = { isOpen := false, owner := s.owner }
    ∧ FlyoutMenu.clicks { props with openProp := none } s [Click.trigger, Click.trigger] = s := by
  refine ⟨rfl, rfl, rfl, rfl, rfl, ?_⟩
  rcases s with ⟨isOpen, owner⟩
  cases isOpen <;> rfl

/-- In controlled mode the flag handed to the panel is the external flag,
whatever the state cell holds. -/
theorem panelVisible_controlled {σ ν : Type} (props : FlyoutMenuProps σ ν) (external isOpen : Bool) :
    FlyoutMenu.panelVisible (FlyoutMenu ({ props with openProp := some external } : FlyoutMenuProps σ ν) isOpen)
      = external :=
  rfl

/-- C5: in controlled mode the panel is visible exactly when the external flag
is true, for every value of the state cell and after every sequence of
trigger, cancel and apply clicks; with the flag true and `transactional = true`
the default footer is still shown after Apply and then Cancel, although the
state cell has become closed. -/
theorem controlled_visibility_is_external_flag {σ ν : Type} (props : FlyoutMenuProps σ ν)
    (external : Bool) (s : FlyoutState σ) (cs : List Click) :
    (∀ isOpen : Bool,
        FlyoutMenu.panelVisible
          (FlyoutMenu ({ props with openProp := some external } : FlyoutMenuProps σ ν) isOpen) = external)
    ∧ (FlyoutMenu.panelVisible
          (FlyoutMenu ({ props with openProp := some external } : FlyoutMenuProps σ ν)
            (FlyoutMenu.clicks ({ props with openProp := some external } : FlyoutMenuProps σ ν) s cs).isOpen)
        = true ↔ external = true)
    ∧ (FlyoutMenu.clicks
          ({ props with openProp := some true, transactional := Transactional.boolean true } :
            FlyoutMenuProps σ ν)
          s [Click.apply, Click.cancel]).isOpen = false
    ∧ FlyoutMenu.panelVisible
        (FlyoutMenu
          ({ props with openProp := some true, transactional := Transactional.boolean true } :
            FlyoutMenuProps σ ν)
          (FlyoutMenu.clicks
            ({ props with openProp := some true, transactional := Transactional.boolean true } :
              FlyoutMenuProps σ ν)
            s [Click.apply, Click.cancel]).isOpen) = true
    ∧ FlyoutMenu.modeOf
        (FlyoutMenu
          ({ props with openProp := some true, transactional := Transactional.boolean true } :
            FlyoutMenuProps σ ν)
          (FlyoutMenu.clicks
            ({ props with openProp := some true, transactional := Transactional.boolean true } :
              FlyoutMenuProps σ ν)
            s [Click.apply, Click.cancel]).isOpen).tooltip.footer = FooterMode.Default := by
  refine ⟨fun isOpen => panelVisible_controlled props external isOpen, ?_, ?_, rfl, rfl⟩
  · rw [panelVisible_controlled]
  · rcases props with ⟨d, o, dis, l, i, t, onApply, onCancel, op⟩
    cases onApply <;> cases onCancel <;> rfl

/-- C10, as the code has it: in controlled mode a trigger click still flips
the state cell, exactly as in uncontrolled mode, and the flag of the trigger's
open class with it; what the click leaves unchanged is the flag handed to the
panel, which stays the external flag, and the owner's state. -/
theorem controlled_toggle_flips_cell_not_panel {σ ν : Type} (props : FlyoutMenuProps σ ν)
    (external : Bool) (s : FlyoutState σ) :
    FlyoutMenu.click ({ props with openProp := some external } : FlyoutMenuProps σ ν) s Click.trigger
        = { isOpen := !s.isOpen, owner := s.owner }
    ∧ (FlyoutMenu ({ props with openProp := some external } : FlyoutMenuProps σ ν)
          (FlyoutMenu.click ({ props with openProp := some external } : FlyoutMenuProps σ ν) s
            Click.trigger).isOpen).triggerOpenClass = !s.isOpen
    ∧ FlyoutMenu.panelVisible
        (FlyoutMenu ({ props with openProp := some external } : FlyoutMenuProps σ ν) s.isOpen) = external
    ∧ FlyoutMenu.panelVisible
        (FlyoutMenu ({ props with openProp := some external } : FlyoutMenuProps σ ν)
          (FlyoutMenu.click ({ props with openProp := some external } : FlyoutMenuProps σ ν) s
            Click.trigger).isOpen) = external :=
  ⟨rfl, rfl, rfl, rfl⟩

/-- C10 fails as stated: with the external flag true and the state cell
closed, a trigger click leaves the state cell open, not closed as before. -/
theorem controlled_toggle_noop_counterexample :
    (FlyoutMenu.click ({ openProp := some true } : FlyoutMenuProps Unit Unit)
        { isOpen := false, owner := () } Click.trigger).isOpen = true
    ∧ (FlyoutMenu.click ({ openProp := some true } : FlyoutMenuProps Unit Unit)
        { isOpen := false, owner := () } Click.trigger).isOpen
      ≠ ({ isOpen := false, owner := () } : FlyoutState Unit).isOpen := by
  decide


/-! ## Theorems: ValueRenderer -/

/-- The Number values of the literals that `ValueRenderer` compares with and
divides by are the numbers themselves. -/
theorem JSNumber.ofNat_literals :
    JSNumber.ofNat 1 = JSNumber.finite 1
    ∧ JSNumber.ofNat 1000 = JSNumber.finite 1000
    ∧ JSNumber.ofNat 1000000 = JSNumber.finite 1000000
    ∧ JSNumber.ofNat 1000000000 = JSNumber.finite 1000000000
    ∧ JSNumber.ofNat 1000000000000 = JSNumber.finite 1000000000000 := by
  refine ⟨?_, ?_, ?_, ?_, ?_⟩ <;> with_unfolding_all rfl

/-- Two finite numbers compare as their exact values do. -/
theorem JSNumber.finite_gt_finite (x t : ℚ) :
    JSNumber.finite x > JSNumber.finite t ↔ t < x := by
  show JSNumber.lt (JSNumber.finite t) (JSNumber.finite x) = true ↔ t < x
  simp [JSNumber.lt]

/-- A double divided by 1 is itself. -/
theorem JSNumber.div_one_of_isDouble (v : JSNumber) (hv : v.isDouble) :
    v / JSNumber.finite 1 = v := by
  cases v with
  | NaN => rfl
  | Infinity negative => cases negative <;> with_unfolding_all rfl
  | finite x =>
    have hx : JSNumber.ofRat x = JSNumber.finite x := hv
    show JSNumber.div (JSNumber.finite x) (JSNumber.finite 1) = JSNumber.finite x
    simp [JSNumber.div, hx]

/-- The nested conditional of `ValueRenderer` divides by `scaleDivisor`. -/
theorem renderValue_number (v : JSNumber) (hv : v.isDouble) (precision : ℕ) :
    renderValue (JSValue.number v) precision
      = (JSNumber.toFixed (v / scaleDivisor v) precision).map RenderValue.text := by
  obtain ⟨t0, t3, t6, t9, t12⟩ := JSNumber.ofNat_literals
  have l3 : (1000 : JSNumber) = JSNumber.finite 1000 := t3
  have l6 : (1000000 : JSNumber) = JSNumber.finite 1000000 := t6
  have l9 : (1000000000 : JSNumber) = JSNumber.finite 1000000000 := t9
  have l12 : (1000000000000 : JSNumber) = JSNumber.finite 1000000000000 := t12
  unfold renderValue scaleDivisor
  simp only [l3, l6, l9, l12, List.filter, t3, t6, t9, t12]
  cases v with
  | NaN =>
    have h : ∀ t : ℚ, ¬ (JSNumber.NaN > JSNumber.finite t) := by
      intro t h
      cases h
    simp [h, t0, JSNumber.div_one_of_isDouble _ hv]
  | Infinity negative =>
    cases negative
    · have h : ∀ t : ℚ, JSNumber.Infinity false > JSNumber.finite t := fun t => rfl
      have q : JSNumber.Infinity false / JSNumber.finite 1000000000000 = JSNumber.Infinity false := by
        with_unfolding_all rfl
      simp [h, t12, q]
    · have h : ∀ t : ℚ, ¬ (JSNumber.Infinity true > JSNumber.finite t) := by
        intro t h
        cases h
      simp [h, t0, JSNumber.div_one_of_isDouble _ hv]
  | finite x =>
    have one := JSNumber.div_one_of_isDouble (JSNumber.finite x) hv
    simp only [JSNumber.finite_gt_finite]
    by_cases h12 : (1000000000000 : ℚ) < x
    · have h9 : (1000000000 : ℚ) < x := by linarith
      have h6 : (1000000 : ℚ) < x := by linarith
      have h3 : (1000 : ℚ) < x := by linarith
      simp [h12, h9, h6, h3, t12]
    · by_cases h9 : (1000000000 : ℚ) < x
      · have h6 : (1000000 : ℚ) < x := by linarith
        have h3 : (1000 : ℚ) < x := by linarith
        simp [h12, h9, h6, h3, t9]
      · by_cases h6 : (1000000 : ℚ) < x
        · have h3 : (1000 : ℚ) < x := by linarith
          simp [h12, h9, h6, h3, t6]
        · by_cases h3 : (1000 : ℚ) < x
          · simp [h12, h9, h6, h3, t3]
          · simp [h12, h9, h6, h3, t0, one]

/-- Within its range of digits `toFixed` returns a string. -/
theorem toFixed_ok (x : JSNumber) (fractionDigits : ℕ) (h : fractionDigits ≤ 100) :
    ∃ text, JSNumber.toFixed x fractionDigits = Except.ok text := by
  unfold JSNumber.toFixed
  rw [if_neg (Nat.not_lt.mpr h)]
  cases x with
  | NaN => exact ⟨_, rfl⟩
  | Infinity negative => exact ⟨_, rfl⟩
  | finite x =>
    dsimp only
    split_ifs <;> exact ⟨_, rfl⟩

/-- Above 100 digits `toFixed` throws. -/
theorem toFixed_rangeError (x : JSNumber) (fractionDigits : ℕ) (h : 100 < fractionDigits) :
    JSNumber.toFixed x fractionDigits = Except.error JSError.RangeError := by
  unfold JSNumber.toFixed
  rw [if_pos h]

/-- A finite number that is at most 1000 exceeds no threshold: the divisor is
1. -/
theorem scaleDivisor_of_le (x : ℚ) (h : x ≤ 1000) :
    scaleDivisor (JSNumber.finite x) = JSNumber.finite 1 := by
  obtain ⟨t0, t3, t6, t9, t12⟩ := JSNumber.ofNat_literals
  have h3 : ¬ (1000 : ℚ) < x := not_lt.mpr h
  have h6 : ¬ (1000000 : ℚ) < x := by intro hc; linarith
  have h9 : ¬ (1000000000 : ℚ) < x := by intro hc; linarith
  have h12 : ¬ (1000000000000 : ℚ) < x := by intro hc; linarith
  unfold scaleDivisor
  simp only [List.filter, t3, t6, t9, t12, JSNumber.finite_gt_finite]
  simp [h3, h6, h9, h12, t0]

/-- The value to render is computed without a throw exactly when the value is
not a number or the precision is at most 100. -/
theorem renderValue_ok_iff (value : JSValue) (precision : ℕ) :
    (∃ rendered, renderValue value precision = Except.ok rendered)
      ↔ (precision ≤ 100 ∨ ∀ n, value ≠ JSValue.number n) := by
  cases value with
  | number v =>
    constructor
    · rintro ⟨rendered, h⟩
      by_contra hc
      have hp : 100 < precision := by
        have := not_or.mp hc
        omega
      unfold renderValue at h
      simp only [toFixed_rangeError _ _ hp, ite_self] at h
      cases h
    · rintro (hp | hn)
      · unfold renderValue
        dsimp only
        split_ifs
        all_goals
          obtain ⟨text, ht⟩ := toFixed_ok _ precision hp
          exact ⟨RenderValue.text text, by rw [ht]; rfl⟩
      · exact absurd rfl (hn v)
  | undefined => exact ⟨fun _ => Or.inr (fun n h => by cases h), fun _ => ⟨_, rfl⟩⟩
  | null => exact ⟨fun _ => Or.inr (fun n h => by cases h), fun _ => ⟨_, rfl⟩⟩
  | boolean b => exact ⟨fun _ => Or.inr (fun n h => by cases h), fun _ => ⟨_, rfl⟩⟩
  | string s => exact ⟨fun _ => Or.inr (fun n h => by cases h), fun _ => ⟨_, rfl⟩⟩
  | symbol d => exact ⟨fun _ => Or.inr (fun n h => by cases h), fun _ => ⟨_, rfl⟩⟩
  | object c => exact ⟨fun _ => Or.inr (fun n h => by cases h), fun _ => ⟨_, rfl⟩⟩

/-- The outcome of the component from the outcomes of its three steps. -/
theorem ValueRenderer_ok (props : ValueRendererProps) (rendered : RenderValue)
    (valueText unitText : String)
    (hr : renderValue props.value props.precision = Except.ok rendered)
    (hv : props.value.toString = Except.ok valueText)
    (hu : props.unit.toString = Except.ok unitText) :
    ValueRenderer props
      = Except.ok
          { unit := props.unit
            hasSecondary := props.hasSecondary
            children :=
              { title := valueText ++ " " ++ unitText
                layout := props.layout
                hasSecondary := props.hasSecondary
                children := rendered } } := by
  unfold ValueRenderer
  rw [hr, hv, hu]

/-- The component returns exactly when each of its three steps does. -/
theorem ValueRenderer_ok_iff_steps (props : ValueRendererProps) :
    (∃ out, ValueRenderer props = Except.ok out)
      ↔ ((∃ rendered, renderValue props.value props.precision = Except.ok rendered)
        ∧ (∃ valueText, props.value.toString = Except.ok valueText)
        ∧ (∃ unitText, props.unit.toString = Except.ok unitText)) := by
  constructor
  · rintro ⟨out, h⟩
    unfold ValueRenderer at h
    cases hr : renderValue props.value props.precision with
    | error e => rw [hr] at h; cases h
    | ok rendered =>
      cases hv : props.value.toString with
      | error e => rw [hr, hv] at h; cases h
      | ok valueText =>
        cases hu : props.unit.toString with
        | error e => rw [hr, hv, hu] at h; cases h
        | ok unitText => exact ⟨⟨_, rfl⟩, ⟨_, rfl⟩, ⟨_, rfl⟩⟩
  · rintro ⟨⟨rendered, hr⟩, ⟨valueText, hv⟩, ⟨unitText, hu⟩⟩
    exact ⟨_, ValueRenderer_ok props rendered valueText unitText hr hv hu⟩

/-- A value has a string exactly when it is neither a Symbol nor an object
whose conversion throws. -/
theorem JSValue.toString_ok_iff (v : JSValue) :
    (∃ text, v.toString = Except.ok text)
      ↔ ((∀ d, v ≠ JSValue.symbol d) ∧ ∀ e, v ≠ JSValue.object (Except.error e)) := by
  cases v with
  | symbol d =>
    constructor
    · rintro ⟨text, h⟩
      cases h
    · rintro ⟨h, _⟩
      exact absurd rfl (h d)
  | object c =>
    cases c with
    | error e =>
      constructor
      · rintro ⟨text, h⟩
        cases h
      · rintro ⟨_, h⟩
        exact absurd rfl (h e)
    | ok text =>
      exact ⟨fun _ => ⟨fun d h => (by cases h), fun e h => (by cases h)⟩, fun _ => ⟨text, rfl⟩⟩
  | undefined => exact ⟨fun _ => ⟨fun d h => (by cases h), fun e h => (by cases h)⟩, fun _ => ⟨_, rfl⟩⟩
  | null => exact ⟨fun _ => ⟨fun d h => (by cases h), fun e h => (by cases h)⟩, fun _ => ⟨_, rfl⟩⟩
  | boolean b => exact ⟨fun _ => ⟨fun d h => (by cases h), fun e h => (by cases h)⟩, fun _ => ⟨_, rfl⟩⟩
  | number n => exact ⟨fun _ => ⟨fun d h => (by cases h), fun e h => (by cases h)⟩, fun _ => ⟨_, rfl⟩⟩
  | string s => exact ⟨fun _ => ⟨fun d h => (by cases h), fun e h => (by cases h)⟩, fun _ => ⟨_, rfl⟩⟩

/-- With a value and a unit that have strings, the visible content is the
value computed before the `return`. -/
theorem visibleText_ValueRenderer (value unit : JSValue) (layout : CARD_LAYOUTS) (precision : ℕ)
    (hasSecondary : Bool) (valueText unitText : String)
    (hv : value.toString = Except.ok valueText) (hu : unit.toString = Except.ok unitText) :
    visibleText
        (ValueRenderer
          { value := value, unit := unit, layout := layout, precision := precision
            hasSecondary := hasSecondary })
      = renderValue value precision := by
  unfold visibleText ValueRenderer
  dsimp only
  rw [hv, hu]
  cases renderValue value precision <;> rfl

/-- C2: for every number `v` (a double, `NaN` or an infinity) and precision `p`
the value that `ValueRenderer` computes for display is `toFixed (v / d) p`
with `d` the largest of the four thresholds that `v` strictly exceeds and 1
when there is none (a `RangeError` of `toFixed` is the outcome on both sides),
and it is the visible content of the rendering for every unit that has a
string; a number that is at most 1000 is divided by 1; at precision 0 each
threshold renders as `1000`, undivided by itself, and each threshold plus one
as `1`. The quotient is the rounded one of the host language and `toFixed`
works on the exact value of the double: 1005 at precision 2 renders as `1.00`,
1150 at precision 1 as `1.1` and 0.1 at precision 20 ends in `555`. -/
theorem visible_text_scaled_exclusive (v : JSNumber) (hv : v.isDouble) (p : ℕ)
    (unit : JSValue) (layout : CARD_LAYOUTS) (hasSecondary : Bool) (x : ℚ) :
    renderValue (JSValue.number v) p
      = (JSNumber.toFixed (v / scaleDivisor v) p).map RenderValue.text
    ∧ (∀ unitText : String, unit.toString = Except.ok unitText →
        visibleText
            (ValueRenderer
              { value := JSValue.number v, unit := unit, layout := layout, precision := p
                hasSecondary := hasSecondary })
          = (JSNumber.toFixed (v / scaleDivisor v) p).map RenderValue.text)
    ∧ scaleDivisor (JSNumber.finite (min x 1000)) = 1
    ∧ (renderValue (JSValue.number 1000) 0 = Except.ok (RenderValue.text "1000")
      ∧ renderValue (JSValue.number 1001) 0 = Except.ok (RenderValue.text "1"))
    ∧ (renderValue (JSValue.number 1000000) 0 = Except.ok (RenderValue.text "1000")
      ∧ renderValue (JSValue.number 1000001) 0 = Except.ok (RenderValue.text "1"))
    ∧ (renderValue (JSValue.number 1000000000) 0 = Except.ok (RenderValue.text "1000")
      ∧ renderValue (JSValue.number 1000000001) 0 = Except.ok (RenderValue.text "1"))
    ∧ (renderValue (JSValue.number 1000000000000) 0 = Except.ok (RenderValue.text "1000")
      ∧ renderValue (JSValue.number 1000000000001) 0 = Except.ok (RenderValue.text "1"))
    ∧ (visibleText
          (ValueRenderer { value := JSValue.number 1000000, unit := JSValue.string "W", precision := 0 })
        = Except.ok (RenderValue.text "1000")
      ∧ visibleText
          (ValueRenderer { value := JSValue.number 1000001, unit := JSValue.string "W", precision := 0 })
        = Except.ok (RenderValue.text "1"))
    ∧ (scaleDivisor 1000 = 1 ∧ scaleDivisor 1001 = 1000 ∧ scaleDivisor 1000000 = 1000
      ∧ scaleDivisor 1000001 = 1000000 ∧ scaleDivisor 1000000000 = 1000000
      ∧ scaleDivisor 1000000001 = 1000000000 ∧ scaleDivisor 1000000000000 = 1000000000
      ∧ scaleDivisor 1000000000001 = 1000000000000)
    ∧ (renderValue (JSValue.number 1005) 2 = Except.ok (RenderValue.text "1.00")
      ∧ renderValue (JSValue.number 1150) 1 = Except.ok (RenderValue.text "1.1")
      ∧ renderValue (JSValue.number 0.1) 20 = Except.ok (RenderValue.text "0.10000000000000000555")
      ∧ renderValue (JSValue.number JSNumber.NaN) 2 = Except.ok (RenderValue.text "NaN")
      ∧ renderValue (JSValue.number (JSNumber.Infinity false)) 2
          = Except.ok (RenderValue.text "Infinity")) := by
  refine ⟨renderValue_number v hv p, ?_, ?_, ⟨?_, ?_⟩, ⟨?_, ?_⟩, ⟨?_, ?_⟩, ⟨?_, ?_⟩, ⟨?_, ?_⟩,
    ⟨?_, ?_, ?_, ?_, ?_, ?_, ?_, ?_⟩, ⟨?_, ?_, ?_, ?_, ?_⟩⟩
  · intro unitText hu
    rw [visibleText_ValueRenderer (JSValue.number v) unit layout p hasSecondary (JSNumber.toString v)
        unitText rfl hu,
      renderValue_number v hv p]
  · exact (scaleDivisor_of_le _ (min_le_right x 1000)).trans JSNumber.ofNat_literals.1.symm
  all_goals with_unfolding_all rfl

/-- C2 at a concrete input: the number 1000001 at precision 0 with the unit W. -/
theorem visible_text_scaled_exclusive_witness :
    JSNumber.isDouble (JSNumber.finite 1000001)
    ∧ renderValue (JSValue.number (JSNumber.finite 1000001)) 0
      = (JSNumber.toFixed (JSNumber.finite 1000001 / scaleDivisor (JSNumber.finite 1000001)) 0).map
          RenderValue.text :=
  ⟨by with_unfolding_all rfl,
    (visible_text_scaled_exclusive (JSNumber.finite 1000001) (by with_unfolding_all rfl) 0
      (JSValue.string "W") CARD_LAYOUTS.HORIZONTAL false 0).1⟩

/-- C6, as the code has it: the component returns a result, without a throw,
exactly when (a) the value is not a number or the precision is at most 100
and (b) the value and the unit have strings, that is, neither is a Symbol or
an object whose conversion to a string throws. So it returns for every
boolean, number, string, null, undefined and object with a string, a React
element among them, under a unit of these kinds, at the precisions 0 to 100
and, for a value that is not a number, at every precision. -/
theorem ValueRenderer_returns_iff (props : ValueRendererProps) :
    ((∃ out, ValueRenderer props = Except.ok out)
      ↔ ((props.precision ≤ 100 ∨ ∀ n, props.value ≠ JSValue.number n)
        ∧ ((∀ d, props.value ≠ JSValue.symbol d) ∧ ∀ e, props.value ≠ JSValue.object (Except.error e))
        ∧ ((∀ d, props.unit ≠ JSValue.symbol d) ∧ ∀ e, props.unit ≠ JSValue.object (Except.error e))))
    ∧ ValueRenderer { value := JSValue.reactElement, unit := JSValue.string "W", precision := 101 }
        = Except.ok
            { unit := JSValue.string "W"
              hasSecondary := false
              children :=
                { title := "[object Object] W"
                  layout := CARD_LAYOUTS.HORIZONTAL
                  hasSecondary := false
                  children := RenderValue.value JSValue.reactElement } }
    ∧ ValueRenderer { value := JSValue.number JSNumber.NaN, unit := JSValue.null, precision := 100 }
        = Except.ok
            { unit := JSValue.null
              hasSecondary := false
              children :=
                { title := "NaN null"
                  layout := CARD_LAYOUTS.HORIZONTAL
                  hasSecondary := false
                  children := RenderValue.text "NaN" } } := by
  refine ⟨?_, rfl, rfl⟩
  rw [ValueRenderer_ok_iff_steps, renderValue_ok_iff, JSValue.toString_ok_iff, JSValue.toString_ok_iff]

/-- C6 fails as stated: the number 1 with the non-negative integer precision
101 makes the component throw a `RangeError`, and a Symbol as the value makes
it throw a `TypeError` at every precision. -/
theorem ValueRenderer_total_counterexample :
    ValueRenderer { value := JSValue.number 1, unit := JSValue.string "W", precision := 101 }
        = Except.error JSError.RangeError
    ∧ (¬ ∃ out,
        ValueRenderer { value := JSValue.number 1, unit := JSValue.string "W", precision := 101 }
          = Except.ok out)
    ∧ ValueRenderer { value := JSValue.symbol "id", unit := JSValue.string "W", precision := 0 }
        = Except.error JSError.TypeError
    ∧ ¬ ∃ out,
        ValueRenderer { value := JSValue.symbol "id", unit := JSValue.string "W", precision := 0 }
          = Except.ok out := by
  have h :
      ValueRenderer { value := JSValue.number 1, unit := JSValue.string "W", precision := 101 }
        = Except.error JSError.RangeError := by
    with_unfolding_all rfl
  have s :
      ValueRenderer { value := JSValue.symbol "id", unit := JSValue.string "W", precision := 0 }
        = Except.error JSError.TypeError := rfl
  refine ⟨h, ?_, s, ?_⟩
  · rintro ⟨out, hout⟩
    rw [h] at hout
    cases hout
  · rintro ⟨out, hout⟩
    rw [s] at hout
    cases hout

/-- C7, as the code has it: whenever the component renders, that is, the value
is not a number or the precision is at most 100, and the value and the unit
have strings, its title is the string of the raw value, one space and the
string of the unit, whatever the precision, the layout and the branch that
made the visible text; the number 2500000 with the unit W has the title
`2500000 W` under the visible text `3` at precision 0 and `2.5` at precision
1. -/
theorem title_is_raw_value_and_unit (props : ValueRendererProps) (valueText unitText : String)
    (h : props.precision ≤ 100 ∨ ∀ n, props.value ≠ JSValue.number n)
    (hv : props.value.toString = Except.ok valueText)
    (hu : props.unit.toString = Except.ok unitText) :
    (∃ out, ValueRenderer props = Except.ok out
        ∧ out.children.title = valueText ++ " " ++ unitText)
    ∧ ValueRenderer { value := JSValue.number 2500000, unit := JSValue.string "W", precision := 0 }
        = Except.ok
            { unit := JSValue.string "W"
              hasSecondary := false
              children :=
                { title := "2500000 W"
                  layout := CARD_LAYOUTS.HORIZONTAL
                  hasSecondary := false
                  children := RenderValue.text "3" } }
    ∧ ValueRenderer { value := JSValue.number 2500000, unit := JSValue.string "W", precision := 1 }
        = Except.ok
            { unit := JSValue.string "W"
              hasSecondary := false
              children :=
                { title := "2500000 W"
                  layout := CARD_LAYOUTS.HORIZONTAL
                  hasSecondary := false
                  children := RenderValue.text "2.5" } } := by
  refine ⟨?_, by with_unfolding_all rfl, by with_unfolding_all rfl⟩
  obtain ⟨rendered, hr⟩ := (renderValue_ok_iff props.value props.precision).mpr h
  exact ⟨_, ValueRenderer_ok props rendered valueText unitText hr hv hu, rfl⟩

/-- C7 at a concrete input: the number 2500000 with the unit W at precision 1. -/
theorem title_is_raw_value_and_unit_witness :
    ((1 : ℕ) ≤ 100 ∨ ∀ n, JSValue.number 2500000 ≠ JSValue.number n)
    ∧ (JSValue.number 2500000).toString = Except.ok "2500000"
    ∧ (JSValue.string "W").toString = Except.ok "W"
    ∧ ∃ out,
        ValueRenderer { value := JSValue.number 2500000, unit := JSValue.string "W", precision := 1 }
          = Except.ok out
        ∧ out.children.title = "2500000" ++ " " ++ "W" :=
  ⟨Or.inl (by decide), by with_unfolding_all rfl, rfl,
    (title_is_raw_value_and_unit
      { value := JSValue.number 2500000, unit := JSValue.string "W", precision := 1 }
      "2500000" "W" (Or.inl (by decide)) (by with_unfolding_all rfl) rfl).1⟩

/-- C7 fails as stated: the number 2500000 with the unit W at precision 101
has no title, since the component throws before it builds one. -/
theorem title_counterexample :
    ValueRenderer { value := JSValue.number 2500000, unit := JSValue.string "W", precision := 101 }
        = Except.error JSError.RangeError
    ∧ ¬ ∃ out,
        ValueRenderer { value := JSValue.number 2500000, unit := JSValue.string "W", precision := 101 }
          = Except.ok out
        ∧ out.children.title = "2500000 W" := by
  have h :
      ValueRenderer { value := JSValue.number 2500000, unit := JSValue.string "W", precision := 101 }
        = Except.error JSError.RangeError := by
    with_unfolding_all rfl
  refine ⟨h, ?_⟩
  rintro ⟨out, hout, _⟩
  rw [h] at hout
  cases hout
